import Mathlib

/-!
Verification of the sandbox launcher `src/html-renderer/render.c` (cmdg).

The program is a linear pipeline of system calls:
getpwnam, getgrnam, initgroups, chdir, unshare, setresgid, setresuid, execv,
each gated on the success of the previous one, with `perror` + `return 1`
on any failure.

We embed it shallowly: the OS is an oracle structure giving the result of
each call; `run` replays `main` against that oracle, recording the exact
sequence of calls made (the trace), the final outcome (exit code or process
replacement), and the process credential state (real/effective/saved
user and group IDs) as updated by the setresgid/setresuid semantics.
-/

/-- A `struct passwd` record as used by the program (only `pw_uid` is read). -/
structure PasswdEntry where
  pw_uid : Nat
  deriving Repr, DecidableEq

/-- A `struct group` record as used by the program (only `gr_gid` is read). -/
structure GroupEntry where
  gr_gid : Nat
  deriving Repr, DecidableEq

/-- Process credentials: the real/effective/saved user- and group-ID triples. -/
structure Creds where
  ruid : Nat
  euid : Nat
  suid : Nat
  rgid : Nat
  egid : Nat
  sgid : Nat
  deriving Repr, DecidableEq

/-- Semantics of a successful `setresgid(r, e, s)`: all three group IDs are set. -/
def Creds.applySetresgid (c : Creds) (r e s : Nat) : Creds :=
  { c with rgid := r, egid := e, sgid := s }

/-- Semantics of a successful `setresuid(r, e, s)`: all three user IDs are set. -/
def Creds.applySetresuid (c : Creds) (r e s : Nat) : Creds :=
  { c with ruid := r, euid := e, suid := s }

/-- The OS oracle: the result each system/library call would return.
`getpwnam`/`getgrnam` return `none` for NULL; the `Int`-returning calls
return 0 on success, nonzero on failure, as in C; `execv` is `true` when
the process image is successfully replaced (the call does not return),
`false` when it returns (failure). -/
structure OS where
  getpwnam : String → Option PasswdEntry
  getgrnam : String → Option GroupEntry
  initgroups : String → Nat → Int
  chdir : String → Int
  unshare : Nat → Int
  setresgid : Nat → Nat → Nat → Int
  setresuid : Nat → Nat → Nat → Int
  execv : String → List String → Bool

/-- One observable call made by the launcher, with its arguments.
`perror` is the diagnostic write to stderr: its string argument is the
operation name passed to `perror` in the source; the C library appends
the OS error string for the failure. -/
inductive Event where
  | getpwnam (name : String)
  | getgrnam (name : String)
  | initgroups (userName : String) (gid : Nat)
  | chdir (path : String)
  | unshare (flags : Nat)
  | setresgid (r e s : Nat)
  | setresuid (r e s : Nat)
  | execv (path : String) (argv : List String)
  | perror (msg : String)
  deriving Repr, DecidableEq

/-- The kind of an event, forgetting its arguments. -/
inductive EKind where
  | getpwnam
  | getgrnam
  | initgroups
  | chdir
  | unshare
  | setresgid
  | setresuid
  | execv
  | perror
  deriving Repr, DecidableEq

/-- Kind of an event. -/
def Event.kind : Event → EKind
  | .getpwnam _ => .getpwnam
  | .getgrnam _ => .getgrnam
  | .initgroups _ _ => .initgroups
  | .chdir _ => .chdir
  | .unshare _ => .unshare
  | .setresgid _ _ _ => .setresgid
  | .setresuid _ _ _ => .setresuid
  | .execv _ _ => .execv
  | .perror _ => .perror

/-- The name of the operation an event performs, as the source spells it
in the corresponding `perror` diagnostic. -/
def Event.name : Event → String
  | .getpwnam _ => "getpwnam"
  | .getgrnam _ => "getgrnam"
  | .initgroups _ _ => "initgroups"
  | .chdir _ => "chdir"
  | .unshare _ => "unshare"
  | .setresgid _ _ _ => "setresgid"
  | .setresuid _ _ _ => "setresuid"
  | .execv _ _ => "execv"
  | .perror _ => "perror"

/-- How the process ends: `exited c` for `return c` from `main`,
`replaced path argv` when `execv` succeeds and the process image is
replaced by `path` running with argument vector `argv`. -/
inductive Outcome where
  | exited (code : Int)
  | replaced (path : String) (argv : List String)
  deriving Repr, DecidableEq

/-- Result of replaying `main`: the calls made in order, the outcome, and
the final credential state. -/
structure RunResult where
  trace : List Event
  outcome : Outcome
  creds : Creds
  deriving Repr, DecidableEq

/-- `const char* user = "nobody";` (render.c line 34). -/
def targetUser : String := "nobody"

/-- `const char* group = "nogroup";` (render.c line 35). -/
def targetGroup : String := "nogroup"

/-- The fixed `chdir("/")` path (render.c line 49). -/
def rootDir : String := "/"

/-- The fixed execv target (render.c line 73). -/
def lynxPath : String := "/usr/bin/lynx"

/-- CLONE_FILES, from linux sched.h. -/
def CLONE_FILES : Nat := 0x00000400
/-- CLONE_FS, from linux sched.h. -/
def CLONE_FS : Nat := 0x00000200
/-- CLONE_NEWIPC, from linux sched.h. -/
def CLONE_NEWIPC : Nat := 0x08000000
/-- CLONE_NEWNET, from linux sched.h. -/
def CLONE_NEWNET : Nat := 0x40000000
/-- CLONE_NEWNS, from linux sched.h. -/
def CLONE_NEWNS : Nat := 0x00020000
/-- CLONE_NEWPID, from linux sched.h. -/
def CLONE_NEWPID : Nat := 0x20000000
/-- CLONE_NEWUSER, from linux sched.h. -/
def CLONE_NEWUSER : Nat := 0x10000000
/-- CLONE_NEWUTS, from linux sched.h. -/
def CLONE_NEWUTS : Nat := 0x04000000
/-- CLONE_SYSVSEM, from linux sched.h. -/
def CLONE_SYSVSEM : Nat := 0x00040000

/-- The flag argument of the single `unshare` call (render.c lines 53-61);
CLONE_NEWUSER is commented out in the source. -/
def unshareFlags : Nat :=
  CLONE_FILES ||| CLONE_FS ||| CLONE_NEWIPC ||| CLONE_NEWNET ||| CLONE_NEWNS
    ||| CLONE_NEWPID ||| CLONE_NEWUTS ||| CLONE_SYSVSEM

/-- Shallow embedding of `main` (render.c lines 29-76), replayed against the
OS oracle `os`, with the launcher's argument vector `argv` and initial
credentials `c0`.  Each branch mirrors one `if (...) { perror(...); return 1; }`
guard of the source, in source order. -/
def run (os : OS) (argv : List String) (c0 : Creds) : RunResult :=
  match os.getpwnam targetUser with
  | none =>
      ⟨[.getpwnam targetUser, .perror "getpwnam"], .exited 1, c0⟩
  | some pwu =>
      match os.getgrnam targetGroup with
      | none =>
          ⟨[.getpwnam targetUser, .getgrnam targetGroup, .perror "getgrnam"],
            .exited 1, c0⟩
      | some pwg =>
          if os.initgroups targetUser pwg.gr_gid ≠ 0 then
            ⟨[.getpwnam targetUser, .getgrnam targetGroup,
              .initgroups targetUser pwg.gr_gid, .perror "initgroups"],
              .exited 1, c0⟩
          else if os.chdir rootDir ≠ 0 then
            ⟨[.getpwnam targetUser, .getgrnam targetGroup,
              .initgroups targetUser pwg.gr_gid, .chdir rootDir,
              .perror "chdir"], .exited 1, c0⟩
          else if os.unshare unshareFlags ≠ 0 then
            ⟨[.getpwnam targetUser, .getgrnam targetGroup,
              .initgroups targetUser pwg.gr_gid, .chdir rootDir,
              .unshare unshareFlags, .perror "unshare"], .exited 1, c0⟩
          else if os.setresgid pwg.gr_gid pwg.gr_gid pwg.gr_gid ≠ 0 then
            ⟨[.getpwnam targetUser, .getgrnam targetGroup,
              .initgroups targetUser pwg.gr_gid, .chdir rootDir,
              .unshare unshareFlags,
              .setresgid pwg.gr_gid pwg.gr_gid pwg.gr_gid,
              .perror "setresgid"], .exited 1, c0⟩
          else if os.setresuid pwu.pw_uid pwu.pw_uid pwu.pw_uid ≠ 0 then
            ⟨[.getpwnam targetUser, .getgrnam targetGroup,
              .initgroups targetUser pwg.gr_gid, .chdir rootDir,
              .unshare unshareFlags,
              .setresgid pwg.gr_gid pwg.gr_gid pwg.gr_gid,
              .setresuid pwu.pw_uid pwu.pw_uid pwu.pw_uid,
              .perror "setresuid"], .exited 1,
              c0.applySetresgid pwg.gr_gid pwg.gr_gid pwg.gr_gid⟩
          else
            match os.execv lynxPath argv with
            | true =>
                ⟨[.getpwnam targetUser, .getgrnam targetGroup,
                  .initgroups targetUser pwg.gr_gid, .chdir rootDir,
                  .unshare unshareFlags,
                  .setresgid pwg.gr_gid pwg.gr_gid pwg.gr_gid,
                  .setresuid pwu.pw_uid pwu.pw_uid pwu.pw_uid,
                  .execv lynxPath argv], .replaced lynxPath argv,
                  ((c0.applySetresgid pwg.gr_gid pwg.gr_gid
                      pwg.gr_gid).applySetresuid pwu.pw_uid pwu.pw_uid
                    pwu.pw_uid)⟩
            | false =>
                ⟨[.getpwnam targetUser, .getgrnam targetGroup,
                  .initgroups targetUser pwg.gr_gid, .chdir rootDir,
                  .unshare unshareFlags,
                  .setresgid pwg.gr_gid pwg.gr_gid pwg.gr_gid,
                  .setresuid pwu.pw_uid pwu.pw_uid pwu.pw_uid,
                  .execv lynxPath argv, .perror "execv"], .exited 1,
                  ((c0.applySetresgid pwg.gr_gid pwg.gr_gid
                      pwg.gr_gid).applySetresuid pwu.pw_uid pwu.pw_uid
                    pwu.pw_uid)⟩

/-- The kind sequence of a trace. -/
def kinds (t : List Event) : List EKind :=
  t.map Event.kind

/-- Every occurrence of `b` in the list is preceded by an occurrence of `a`:
scanning left to right, `a` is found before any `b` is found. -/
def precededBy (a b : EKind) : List EKind → Bool
  | [] => true
  | k :: ks => if k = b then false else if k = a then true else precededBy a b ks

/-- Pipeline position of each call kind; the diagnostic write is last. -/
def EKind.stage : EKind → Nat
  | .getpwnam => 0
  | .getgrnam => 1
  | .initgroups => 2
  | .chdir => 3
  | .unshare => 4
  | .setresgid => 5
  | .setresuid => 6
  | .execv => 7
  | .perror => 8

/-- The stage numbers of a kind sequence are strictly increasing. -/
def stagesIncreasing : List EKind → Bool
  | [] => true
  | [_] => true
  | a :: b :: r => decide (a.stage < b.stage) && stagesIncreasing (b :: r)

/-- The kinds of the eight stage system/library calls, in pipeline order. -/
def syscallKinds : List EKind :=
  [.getpwnam, .getgrnam, .initgroups, .chdir, .unshare, .setresgid,
   .setresuid, .execv]

/-- Entry for user "nobody" with the conventional uid 65534. -/
def pwNobody : PasswdEntry := ⟨65534⟩

/-- Entry for group "nogroup" with the conventional gid 65534. -/
def grNogroup : GroupEntry := ⟨65534⟩

/-- Oracle on which every call succeeds. -/
def osAllOk : OS :=
  { getpwnam := fun _ => some pwNobody,
    getgrnam := fun _ => some grNogroup,
    initgroups := fun _ _ => 0,
    chdir := fun _ => 0,
    unshare := fun _ => 0,
    setresgid := fun _ _ _ => 0,
    setresuid := fun _ _ _ => 0,
    execv := fun _ _ => true }

/-- Oracle on which the user lookup finds no record. -/
def osNoUser : OS := { osAllOk with getpwnam := fun _ => none }

/-- Oracle on which `unshare` fails. -/
def osUnshareFails : OS := { osAllOk with unshare := fun _ => -1 }

/-- Oracle on which `execv` returns (fails). -/
def osExecFails : OS := { osAllOk with execv := fun _ _ => false }

/-- Initial credentials of the privileged launcher (root). -/
def rootCreds : Creds := ⟨0, 0, 0, 0, 0, 0⟩

/-- A sample argument vector. -/
def argvEx : List String := ["render", "http://example.com/"]

/-- Builds-time-fixed names check: each call kind only ever receives the
fixed configuration values of the source. -/
def fixedArgsB : Event → Bool
  | .getpwnam n => n == "nobody"
  | .getgrnam n => n == "nogroup"
  | .initgroups n _ => n == "nobody"
  | .chdir p => p == "/"
  | .execv p _ => p == "/usr/bin/lynx"
  | _ => true

/-- Forgets the argument vector carried by an execv event. -/
def eraseArgv : Event → Event
  | .execv p _ => .execv p []
  | e => e

/-- Forgets the argument vector carried by a replacement outcome. -/
def eraseOutcome : Outcome → Outcome
  | .replaced p _ => .replaced p []
  | o => o

/-- Exhaustive case analysis of `run`: exactly one of the nine branches of
`main` is taken, determined by the oracle results, and in each branch the
trace, outcome and credentials are the given literals. -/
theorem run_shape (os : OS) (argv : List String) (c0 : Creds) :
    (os.getpwnam targetUser = none ∧
      run os argv c0 =
        ⟨[.getpwnam targetUser, .perror "getpwnam"], .exited 1, c0⟩) ∨
    (∃ pwu, os.getpwnam targetUser = some pwu ∧
      os.getgrnam targetGroup = none ∧
      run os argv c0 =
        ⟨[.getpwnam targetUser, .getgrnam targetGroup, .perror "getgrnam"],
          .exited 1, c0⟩) ∨
    (∃ pwu pwg, os.getpwnam targetUser = some pwu ∧
      os.getgrnam targetGroup = some pwg ∧
      os.initgroups targetUser pwg.gr_gid ≠ 0 ∧
      run os argv c0 =
        ⟨[.getpwnam targetUser, .getgrnam targetGroup,
          .initgroups targetUser pwg.gr_gid, .perror "initgroups"],
          .exited 1, c0⟩) ∨
    (∃ pwu pwg, os.getpwnam targetUser = some pwu ∧
      os.getgrnam targetGroup = some pwg ∧
      os.initgroups targetUser pwg.gr_gid = 0 ∧
      os.chdir rootDir ≠ 0 ∧
      run os argv c0 =
        ⟨[.getpwnam targetUser, .getgrnam targetGroup,
          .initgroups targetUser pwg.gr_gid, .chdir rootDir,
          .perror "chdir"], .exited 1, c0⟩) ∨
    (∃ pwu pwg, os.getpwnam targetUser = some pwu ∧
      os.getgrnam targetGroup = some pwg ∧
      os.initgroups targetUser pwg.gr_gid = 0 ∧
      os.chdir rootDir = 0 ∧
      os.unshare unshareFlags ≠ 0 ∧
      run os argv c0 =
        ⟨[.getpwnam targetUser, .getgrnam targetGroup,
          .initgroups targetUser pwg.gr_gid, .chdir rootDir,
          .unshare unshareFlags, .perror "unshare"], .exited 1, c0⟩) ∨
    (∃ pwu pwg, os.getpwnam targetUser = some pwu ∧
      os.getgrnam targetGroup = some pwg ∧
      os.initgroups targetUser pwg.gr_gid = 0 ∧
      os.chdir rootDir = 0 ∧
      os.unshare unshareFlags = 0 ∧
      os.setresgid pwg.gr_gid pwg.gr_gid pwg.gr_gid ≠ 0 ∧
      run os argv c0 =
        ⟨[.getpwnam targetUser, .getgrnam targetGroup,
          .initgroups targetUser pwg.gr_gid, .chdir rootDir,
          .unshare unshareFlags,
          .setresgid pwg.gr_gid pwg.gr_gid pwg.gr_gid,
          .perror "setresgid"], .exited 1, c0⟩) ∨
    (∃ pwu pwg, os.getpwnam targetUser = some pwu ∧
      os.getgrnam targetGroup = some pwg ∧
      os.initgroups targetUser pwg.gr_gid = 0 ∧
      os.chdir rootDir = 0 ∧
      os.unshare unshareFlags = 0 ∧
      os.setresgid pwg.gr_gid pwg.gr_gid pwg.gr_gid = 0 ∧
      os.setresuid pwu.pw_uid pwu.pw_uid pwu.pw_uid ≠ 0 ∧
      run os argv c0 =
        ⟨[.getpwnam targetUser, .getgrnam targetGroup,
          .initgroups targetUser pwg.gr_gid, .chdir rootDir,
          .unshare unshareFlags,
          .setresgid pwg.gr_gid pwg.gr_gid pwg.gr_gid,
          .setresuid pwu.pw_uid pwu.pw_uid pwu.pw_uid,
          .perror "setresuid"], .exited 1,
          c0.applySetresgid pwg.gr_gid pwg.gr_gid pwg.gr_gid⟩) ∨
    (∃ pwu pwg, os.getpwnam targetUser = some pwu ∧
      os.getgrnam targetGroup = some pwg ∧
      os.initgroups targetUser pwg.gr_gid = 0 ∧
      os.chdir rootDir = 0 ∧
      os.unshare unshareFlags = 0 ∧
      os.setresgid pwg.gr_gid pwg.gr_gid pwg.gr_gid = 0 ∧
      os.setresuid pwu.pw_uid pwu.pw_uid pwu.pw_uid = 0 ∧
      os.execv lynxPath argv = false ∧
      run os argv c0 =
        ⟨[.getpwnam targetUser, .getgrnam targetGroup,
          .initgroups targetUser pwg.gr_gid, .chdir rootDir,
          .unshare unshareFlags,
          .setresgid pwg.gr_gid pwg.gr_gid pwg.gr_gid,
          .setresuid pwu.pw_uid pwu.pw_uid pwu.pw_uid,
          .execv lynxPath argv, .perror "execv"], .exited 1,
          ((c0.applySetresgid pwg.gr_gid pwg.gr_gid
              pwg.gr_gid).applySetresuid pwu.pw_uid pwu.pw_uid
            pwu.pw_uid)⟩) ∨
    (∃ pwu pwg, os.getpwnam targetUser = some pwu ∧
      os.getgrnam targetGroup = some pwg ∧
      os.initgroups targetUser pwg.gr_gid = 0 ∧
      os.chdir rootDir = 0 ∧
      os.unshare unshareFlags = 0 ∧
      os.setresgid pwg.gr_gid pwg.gr_gid pwg.gr_gid = 0 ∧
      os.setresuid pwu.pw_uid pwu.pw_uid pwu.pw_uid = 0 ∧
      os.execv lynxPath argv = true ∧
      run os argv c0 =
        ⟨[.getpwnam targetUser, .getgrnam targetGroup,
          .initgroups targetUser pwg.gr_gid, .chdir rootDir,
          .unshare unshareFlags,
          .setresgid pwg.gr_gid pwg.gr_gid pwg.gr_gid,
          .setresuid pwu.pw_uid pwu.pw_uid pwu.pw_uid,
          .execv lynxPath argv], .replaced lynxPath argv,
          ((c0.applySetresgid pwg.gr_gid pwg.gr_gid
              pwg.gr_gid).applySetresuid pwu.pw_uid pwu.pw_uid
            pwu.pw_uid)⟩) := by
  cases hu : os.getpwnam targetUser with
  | none => exact Or.inl ⟨rfl, by simp [run, hu]⟩
  | some pwu =>
  cases hg : os.getgrnam targetGroup with
  | none => exact Or.inr (Or.inl ⟨pwu, rfl, rfl, by simp [run, hu, hg]⟩)
  | some pwg =>
  by_cases h3 : os.initgroups targetUser pwg.gr_gid ≠ 0
  · exact Or.inr (Or.inr (Or.inl
      ⟨pwu, pwg, rfl, rfl, h3, by simp [run, hu, hg, h3]⟩))
  have e3 := not_ne_iff.mp h3
  by_cases h4 : os.chdir rootDir ≠ 0
  · exact Or.inr (Or.inr (Or.inr (Or.inl
      ⟨pwu, pwg, rfl, rfl, e3, h4, by simp [run, hu, hg, h3, h4]⟩)))
  have e4 := not_ne_iff.mp h4
  by_cases h5 : os.unshare unshareFlags ≠ 0
  · exact Or.inr (Or.inr (Or.inr (Or.inr (Or.inl
      ⟨pwu, pwg, rfl, rfl, e3, e4, h5, by simp [run, hu, hg, h3, h4, h5]⟩))))
  have e5 := not_ne_iff.mp h5
  by_cases h6 : os.setresgid pwg.gr_gid pwg.gr_gid pwg.gr_gid ≠ 0
  · exact Or.inr (Or.inr (Or.inr (Or.inr (Or.inr (Or.inl
      ⟨pwu, pwg, rfl, rfl, e3, e4, e5, h6,
        by simp [run, hu, hg, h3, h4, h5, h6]⟩)))))
  have e6 := not_ne_iff.mp h6
  by_cases h7 : os.setresuid pwu.pw_uid pwu.pw_uid pwu.pw_uid ≠ 0
  · exact Or.inr (Or.inr (Or.inr (Or.inr (Or.inr (Or.inr (Or.inl
      ⟨pwu, pwg, rfl, rfl, e3, e4, e5, e6, h7,
        by simp [run, hu, hg, h3, h4, h5, h6, h7]⟩))))))
  have e7 := not_ne_iff.mp h7
  cases he : os.execv lynxPath argv with
  | false =>
      exact Or.inr (Or.inr (Or.inr (Or.inr (Or.inr (Or.inr (Or.inr (Or.inl
        ⟨pwu, pwg, rfl, rfl, e3, e4, e5, e6, e7, rfl,
          by simp [run, hu, hg, h3, h4, h5, h6, h7, he]⟩)))))))
  | true =>
      exact Or.inr (Or.inr (Or.inr (Or.inr (Or.inr (Or.inr (Or.inr (Or.inr
        ⟨pwu, pwg, rfl, rfl, e3, e4, e5, e6, e7, rfl,
          by simp [run, hu, hg, h3, h4, h5, h6, h7, he]⟩)))))))


/-- C1: on every execution, the user-ID change is never issued before the
group-ID change: in the call trace every `setresuid` is preceded by a
`setresgid`, and whenever `setresuid` is reached the `setresgid` call for
the resolved target group was made and succeeded (returned 0). -/
theorem claim_C1 (os : OS) (argv : List String) (c0 : Creds) :
    precededBy .setresgid .setresuid (kinds (run os argv c0).trace) = true ∧
    (EKind.setresuid ∈ kinds (run os argv c0).trace →
      ∃ pwg, os.getgrnam targetGroup = some pwg ∧
        os.setresgid pwg.gr_gid pwg.gr_gid pwg.gr_gid = 0 ∧
        Event.setresgid pwg.gr_gid pwg.gr_gid pwg.gr_gid ∈
          (run os argv c0).trace) := by
  rcases run_shape os argv c0 with
    ⟨hu, hr⟩ | ⟨pwu, hu, hg, hr⟩ | ⟨pwu, pwg, hu, hg, h3, hr⟩ |
    ⟨pwu, pwg, hu, hg, h3, h4, hr⟩ | ⟨pwu, pwg, hu, hg, h3, h4, h5, hr⟩ |
    ⟨pwu, pwg, hu, hg, h3, h4, h5, h6, hr⟩ |
    ⟨pwu, pwg, hu, hg, h3, h4, h5, h6, h7, hr⟩ |
    ⟨pwu, pwg, hu, hg, h3, h4, h5, h6, h7, h8, hr⟩ |
    ⟨pwu, pwg, hu, hg, h3, h4, h5, h6, h7, h8, hr⟩ <;>
  rw [hr] <;>
  refine ⟨rfl, fun hmem => ?_⟩ <;>
  first
    | exact ⟨pwg, hg, h6, by simp⟩
    | simp [kinds, Event.kind] at hmem

/-- C1 witness: on the all-success oracle `setresuid` is reached and the
group drop for the resolved group is in the trace and succeeded. -/
theorem claim_C1_witness :
    EKind.setresuid ∈ kinds (run osAllOk argvEx rootCreds).trace ∧
    (∃ pwg, osAllOk.getgrnam targetGroup = some pwg ∧
      osAllOk.setresgid pwg.gr_gid pwg.gr_gid pwg.gr_gid = 0 ∧
      Event.setresgid pwg.gr_gid pwg.gr_gid pwg.gr_gid ∈
        (run osAllOk argvEx rootCreds).trace) :=
  ⟨by decide, (claim_C1 osAllOk argvEx rootCreds).2 (by decide)⟩

/-- C2: on every execution, `unshare` precedes both privilege-drop calls in
the trace, and if either privilege-drop call is made then the `unshare`
call was made and succeeded. -/
theorem claim_C2 (os : OS) (argv : List String) (c0 : Creds) :
    precededBy .unshare .setresgid (kinds (run os argv c0).trace) = true ∧
    precededBy .unshare .setresuid (kinds (run os argv c0).trace) = true ∧
    ((EKind.setresgid ∈ kinds (run os argv c0).trace ∨
        EKind.setresuid ∈ kinds (run os argv c0).trace) →
      os.unshare unshareFlags = 0 ∧
      Event.unshare unshareFlags ∈ (run os argv c0).trace) := by
  rcases run_shape os argv c0 with
    ⟨hu, hr⟩ | ⟨pwu, hu, hg, hr⟩ | ⟨pwu, pwg, hu, hg, h3, hr⟩ |
    ⟨pwu, pwg, hu, hg, h3, h4, hr⟩ | ⟨pwu, pwg, hu, hg, h3, h4, h5, hr⟩ |
    ⟨pwu, pwg, hu, hg, h3, h4, h5, h6, hr⟩ |
    ⟨pwu, pwg, hu, hg, h3, h4, h5, h6, h7, hr⟩ |
    ⟨pwu, pwg, hu, hg, h3, h4, h5, h6, h7, h8, hr⟩ |
    ⟨pwu, pwg, hu, hg, h3, h4, h5, h6, h7, h8, hr⟩ <;>
  rw [hr] <;>
  refine ⟨rfl, rfl, fun hmem => ?_⟩ <;>
  first
    | exact ⟨h5, by simp⟩
    | simp [kinds, Event.kind] at hmem

/-- C2 witness: on the all-success oracle the group drop is made and the
`unshare` call was made and succeeded. -/
theorem claim_C2_witness :
    EKind.setresgid ∈ kinds (run osAllOk argvEx rootCreds).trace ∧
    (osAllOk.unshare unshareFlags = 0 ∧
      Event.unshare unshareFlags ∈ (run osAllOk argvEx rootCreds).trace) :=
  ⟨by decide, (claim_C2 osAllOk argvEx rootCreds).2.2 (Or.inl (by decide))⟩

/-- C3: if any stage before Exec fails (the trace ends in a diagnostic for an
operation other than `execv`), the process exits with status 1, the
process-replacement call is never made, and no call of a later stage than
the failing one appears: stage numbers strictly increase along the trace and
the failing call is the last one, directly before its diagnostic. -/
theorem claim_C3 (os : OS) (argv : List String) (c0 : Creds) (m : String)
    (hm : Event.perror m ∈ (run os argv c0).trace) (hne : m ≠ "execv") :
    (run os argv c0).outcome = Outcome.exited 1 ∧
    EKind.execv ∉ kinds (run os argv c0).trace ∧
    stagesIncreasing (kinds (run os argv c0).trace) = true ∧
    ∃ p e, (run os argv c0).trace = p ++ [e, Event.perror m] ∧
      Event.name e = m := by
  rcases run_shape os argv c0 with
    ⟨hu, hr⟩ | ⟨pwu, hu, hg, hr⟩ | ⟨pwu, pwg, hu, hg, h3, hr⟩ |
    ⟨pwu, pwg, hu, hg, h3, h4, hr⟩ | ⟨pwu, pwg, hu, hg, h3, h4, h5, hr⟩ |
    ⟨pwu, pwg, hu, hg, h3, h4, h5, h6, hr⟩ |
    ⟨pwu, pwg, hu, hg, h3, h4, h5, h6, h7, hr⟩ |
    ⟨pwu, pwg, hu, hg, h3, h4, h5, h6, h7, h8, hr⟩ |
    ⟨pwu, pwg, hu, hg, h3, h4, h5, h6, h7, h8, hr⟩ <;>
  rw [hr] at hm ⊢
  · simp at hm
    subst hm
    exact ⟨rfl, by simp [kinds, Event.kind], rfl,
      [], .getpwnam targetUser, rfl, rfl⟩
  · simp at hm
    subst hm
    exact ⟨rfl, by simp [kinds, Event.kind], rfl,
      [.getpwnam targetUser], .getgrnam targetGroup, rfl, rfl⟩
  · simp at hm
    subst hm
    exact ⟨rfl, by simp [kinds, Event.kind], rfl,
      [.getpwnam targetUser, .getgrnam targetGroup],
      .initgroups targetUser pwg.gr_gid, rfl, rfl⟩
  · simp at hm
    subst hm
    exact ⟨rfl, by simp [kinds, Event.kind], rfl,
      [.getpwnam targetUser, .getgrnam targetGroup,
        .initgroups targetUser pwg.gr_gid],
      .chdir rootDir, rfl, rfl⟩
  · simp at hm
    subst hm
    exact ⟨rfl, by simp [kinds, Event.kind], rfl,
      [.getpwnam targetUser, .getgrnam targetGroup,
        .initgroups targetUser pwg.gr_gid, .chdir rootDir],
      .unshare unshareFlags, rfl, rfl⟩
  · simp at hm
    subst hm
    exact ⟨rfl, by simp [kinds, Event.kind], rfl,
      [.getpwnam targetUser, .getgrnam targetGroup,
        .initgroups targetUser pwg.gr_gid, .chdir rootDir,
        .unshare unshareFlags],
      .setresgid pwg.gr_gid pwg.gr_gid pwg.gr_gid, rfl, rfl⟩
  · simp at hm
    subst hm
    exact ⟨rfl, by simp [kinds, Event.kind], rfl,
      [.getpwnam targetUser, .getgrnam targetGroup,
        .initgroups targetUser pwg.gr_gid, .chdir rootDir,
        .unshare unshareFlags,
        .setresgid pwg.gr_gid pwg.gr_gid pwg.gr_gid],
      .setresuid pwu.pw_uid pwu.pw_uid pwu.pw_uid, rfl, rfl⟩
  · simp at hm
    exact absurd hm hne
  · simp at hm

/-- C3 witness: when the user lookup fails, the run exits 1, never calls
execv, and the trace ends at the failed lookup and its diagnostic. -/
theorem claim_C3_witness :
    Event.perror "getpwnam" ∈ (run osNoUser argvEx rootCreds).trace ∧
    (("getpwnam" : String) ≠ "execv") ∧
    ((run osNoUser argvEx rootCreds).outcome = Outcome.exited 1 ∧
      EKind.execv ∉ kinds (run osNoUser argvEx rootCreds).trace ∧
      stagesIncreasing (kinds (run osNoUser argvEx rootCreds).trace) = true ∧
      ∃ p e, (run osNoUser argvEx rootCreds).trace =
          p ++ [e, Event.perror "getpwnam"] ∧ Event.name e = "getpwnam") :=
  ⟨by decide, by decide,
    claim_C3 osNoUser argvEx rootCreds "getpwnam" (by decide) (by decide)⟩

/-- C4: when the run ends with the process image replaced, the identity
lookups succeeded and the final credentials have real = effective = saved
user ID equal to the resolved user's ID and likewise for the group triple;
each triple is set by a single call whose three arguments are equal. -/
theorem claim_C4 (os : OS) (argv : List String) (c0 : Creds)
    (path : String) (a : List String)
    (h : (run os argv c0).outcome = Outcome.replaced path a) :
    ∃ pwu pwg, os.getpwnam targetUser = some pwu ∧
      os.getgrnam targetGroup = some pwg ∧
      (run os argv c0).creds =
        ⟨pwu.pw_uid, pwu.pw_uid, pwu.pw_uid,
          pwg.gr_gid, pwg.gr_gid, pwg.gr_gid⟩ ∧
      (kinds (run os argv c0).trace).count EKind.setresgid = 1 ∧
      (kinds (run os argv c0).trace).count EKind.setresuid = 1 ∧
      (∀ r e s, Event.setresgid r e s ∈ (run os argv c0).trace →
        r = e ∧ e = s) ∧
      (∀ r e s, Event.setresuid r e s ∈ (run os argv c0).trace →
        r = e ∧ e = s) := by
  rcases run_shape os argv c0 with
    ⟨hu, hr⟩ | ⟨pwu, hu, hg, hr⟩ | ⟨pwu, pwg, hu, hg, h3, hr⟩ |
    ⟨pwu, pwg, hu, hg, h3, h4, hr⟩ | ⟨pwu, pwg, hu, hg, h3, h4, h5, hr⟩ |
    ⟨pwu, pwg, hu, hg, h3, h4, h5, h6, hr⟩ |
    ⟨pwu, pwg, hu, hg, h3, h4, h5, h6, h7, hr⟩ |
    ⟨pwu, pwg, hu, hg, h3, h4, h5, h6, h7, h8, hr⟩ |
    ⟨pwu, pwg, hu, hg, h3, h4, h5, h6, h7, h8, hr⟩ <;>
  rw [hr] at h ⊢
  all_goals try simp at h
  refine ⟨pwu, pwg, hu, hg, rfl, rfl, rfl, ?_, ?_⟩
  all_goals
    intro r e s hmem
    simp at hmem
    omega

/-- C4 witness: on the all-success oracle the image is replaced and the final
credentials are the resolved IDs 65534. -/
theorem claim_C4_witness :
    (run osAllOk argvEx rootCreds).outcome = Outcome.replaced lynxPath argvEx ∧
    ∃ pwu pwg, osAllOk.getpwnam targetUser = some pwu ∧
      osAllOk.getgrnam targetGroup = some pwg ∧
      (run osAllOk argvEx rootCreds).creds =
        ⟨pwu.pw_uid, pwu.pw_uid, pwu.pw_uid,
          pwg.gr_gid, pwg.gr_gid, pwg.gr_gid⟩ ∧
      (kinds (run osAllOk argvEx rootCreds).trace).count EKind.setresgid = 1 ∧
      (kinds (run osAllOk argvEx rootCreds).trace).count EKind.setresuid = 1 ∧
      (∀ r e s, Event.setresgid r e s ∈ (run osAllOk argvEx rootCreds).trace →
        r = e ∧ e = s) ∧
      (∀ r e s, Event.setresuid r e s ∈ (run osAllOk argvEx rootCreds).trace →
        r = e ∧ e = s) :=
  ⟨by decide, claim_C4 osAllOk argvEx rootCreds lynxPath argvEx (by decide)⟩

/-- C5: at most one `unshare` call per run and exactly one when the
Isolating stage is reached; every `unshare` call carries exactly the flag
word of the source, which includes the mount, IPC, network, PID, UTS and
SysV-semaphore namespace flags plus CLONE_FILES and CLONE_FS, contains no
CLONE_NEWUSER bit, and consists of exactly those eight flags. -/
theorem claim_C5 (os : OS) (argv : List String) (c0 : Creds) :
    (kinds (run os argv c0).trace).count EKind.unshare ≤ 1 ∧
    (EKind.unshare ∈ kinds (run os argv c0).trace →
      (kinds (run os argv c0).trace).count EKind.unshare = 1) ∧
    (∀ f, Event.unshare f ∈ (run os argv c0).trace → f = unshareFlags) ∧
    unshareFlags &&& CLONE_NEWNS = CLONE_NEWNS ∧
    unshareFlags &&& CLONE_NEWIPC = CLONE_NEWIPC ∧
    unshareFlags &&& CLONE_NEWNET = CLONE_NEWNET ∧
    unshareFlags &&& CLONE_NEWPID = CLONE_NEWPID ∧
    unshareFlags &&& CLONE_NEWUTS = CLONE_NEWUTS ∧
    unshareFlags &&& CLONE_SYSVSEM = CLONE_SYSVSEM ∧
    unshareFlags &&& CLONE_FILES = CLONE_FILES ∧
    unshareFlags &&& CLONE_FS = CLONE_FS ∧
    unshareFlags &&& CLONE_NEWUSER = 0 ∧
    unshareFlags = CLONE_FILES + CLONE_FS + CLONE_NEWIPC + CLONE_NEWNET +
      CLONE_NEWNS + CLONE_NEWPID + CLONE_NEWUTS + CLONE_SYSVSEM := by
  rcases run_shape os argv c0 with
    ⟨hu, hr⟩ | ⟨pwu, hu, hg, hr⟩ | ⟨pwu, pwg, hu, hg, h3, hr⟩ |
    ⟨pwu, pwg, hu, hg, h3, h4, hr⟩ | ⟨pwu, pwg, hu, hg, h3, h4, h5, hr⟩ |
    ⟨pwu, pwg, hu, hg, h3, h4, h5, h6, hr⟩ |
    ⟨pwu, pwg, hu, hg, h3, h4, h5, h6, h7, hr⟩ |
    ⟨pwu, pwg, hu, hg, h3, h4, h5, h6, h7, h8, hr⟩ |
    ⟨pwu, pwg, hu, hg, h3, h4, h5, h6, h7, h8, hr⟩ <;>
  rw [hr] <;>
  exact ⟨by first | exact Nat.zero_le _ | exact Nat.le_refl _,
    by first
      | exact fun _ => rfl
      | exact fun hmem => absurd hmem (by simp [kinds, Event.kind]),
    fun f hf => by simp at hf <;> exact hf,
    by decide, by decide, by decide, by decide, by decide, by decide,
    by decide, by decide, by decide, by decide⟩

/-- C5 witness: on the all-success oracle the `unshare` stage is reached and
the call appears exactly once, with the source's flag word. -/
theorem claim_C5_witness :
    EKind.unshare ∈ kinds (run osAllOk argvEx rootCreds).trace ∧
    (kinds (run osAllOk argvEx rootCreds).trace).count EKind.unshare = 1 ∧
    Event.unshare unshareFlags ∈ (run osAllOk argvEx rootCreds).trace :=
  ⟨by decide, (claim_C5 osAllOk argvEx rootCreds).2.1 (by decide), by decide⟩

/-- C6: every failing run returns exit status exactly 1 and the trace holds
exactly one diagnostic write, placed last, directly after and naming the
operation that failed. -/
theorem claim_C6 (os : OS) (argv : List String) (c0 : Creds) (c : Int)
    (h : (run os argv c0).outcome = Outcome.exited c) :
    c = 1 ∧
    (kinds (run os argv c0).trace).count EKind.perror = 1 ∧
    ∃ p e, (run os argv c0).trace = p ++ [e, Event.perror (Event.name e)] := by
  rcases run_shape os argv c0 with
    ⟨hu, hr⟩ | ⟨pwu, hu, hg, hr⟩ | ⟨pwu, pwg, hu, hg, h3, hr⟩ |
    ⟨pwu, pwg, hu, hg, h3, h4, hr⟩ | ⟨pwu, pwg, hu, hg, h3, h4, h5, hr⟩ |
    ⟨pwu, pwg, hu, hg, h3, h4, h5, h6, hr⟩ |
    ⟨pwu, pwg, hu, hg, h3, h4, h5, h6, h7, hr⟩ |
    ⟨pwu, pwg, hu, hg, h3, h4, h5, h6, h7, h8, hr⟩ |
    ⟨pwu, pwg, hu, hg, h3, h4, h5, h6, h7, h8, hr⟩ <;>
  rw [hr] at h ⊢ <;>
  simp at h
  · exact ⟨h.symm, rfl, [], .getpwnam targetUser, rfl⟩
  · exact ⟨h.symm, rfl, [.getpwnam targetUser], .getgrnam targetGroup, rfl⟩
  · exact ⟨h.symm, rfl,
      [.getpwnam targetUser, .getgrnam targetGroup],
      .initgroups targetUser pwg.gr_gid, rfl⟩
  · exact ⟨h.symm, rfl,
      [.getpwnam targetUser, .getgrnam targetGroup,
        .initgroups targetUser pwg.gr_gid],
      .chdir rootDir, rfl⟩
  · exact ⟨h.symm, rfl,
      [.getpwnam targetUser, .getgrnam targetGroup,
        .initgroups targetUser pwg.gr_gid, .chdir rootDir],
      .unshare unshareFlags, rfl⟩
  · exact ⟨h.symm, rfl,
      [.getpwnam targetUser, .getgrnam targetGroup,
        .initgroups targetUser pwg.gr_gid, .chdir rootDir,
        .unshare unshareFlags],
      .setresgid pwg.gr_gid pwg.gr_gid pwg.gr_gid, rfl⟩
  · exact ⟨h.symm, rfl,
      [.getpwnam targetUser, .getgrnam targetGroup,
        .initgroups targetUser pwg.gr_gid, .chdir rootDir,
        .unshare unshareFlags,
        .setresgid pwg.gr_gid pwg.gr_gid pwg.gr_gid],
      .setresuid pwu.pw_uid pwu.pw_uid pwu.pw_uid, rfl⟩
  · exact ⟨h.symm, rfl,
      [.getpwnam targetUser, .getgrnam targetGroup,
        .initgroups targetUser pwg.gr_gid, .chdir rootDir,
        .unshare unshareFlags,
        .setresgid pwg.gr_gid pwg.gr_gid pwg.gr_gid,
        .setresuid pwu.pw_uid pwu.pw_uid pwu.pw_uid],
      .execv lynxPath argv, rfl⟩

/-- C6 witness: the failing user lookup yields exit status 1 and a single
trailing diagnostic naming getpwnam. -/
theorem claim_C6_witness :
    (run osNoUser argvEx rootCreds).outcome = Outcome.exited 1 ∧
    ((1 : Int) = 1 ∧
      (kinds (run osNoUser argvEx rootCreds).trace).count EKind.perror = 1 ∧
      ∃ p e, (run osNoUser argvEx rootCreds).trace =
          p ++ [e, Event.perror (Event.name e)]) :=
  ⟨by decide, claim_C6 osNoUser argvEx rootCreds 1 (by decide)⟩

/-- C7: each stage's underlying call appears at most once in any run's
trace, and a run that ends in replacement has each of the eight calls
exactly once. -/
theorem claim_C7 (os : OS) (argv : List String) (c0 : Creds) :
    (∀ k ∈ syscallKinds, (kinds (run os argv c0).trace).count k ≤ 1) ∧
    (∀ path a, (run os argv c0).outcome = Outcome.replaced path a →
      ∀ k ∈ syscallKinds, (kinds (run os argv c0).trace).count k = 1) := by
  rcases run_shape os argv c0 with
    ⟨hu, hr⟩ | ⟨pwu, hu, hg, hr⟩ | ⟨pwu, pwg, hu, hg, h3, hr⟩ |
    ⟨pwu, pwg, hu, hg, h3, h4, hr⟩ | ⟨pwu, pwg, hu, hg, h3, h4, h5, hr⟩ |
    ⟨pwu, pwg, hu, hg, h3, h4, h5, h6, hr⟩ |
    ⟨pwu, pwg, hu, hg, h3, h4, h5, h6, h7, hr⟩ |
    ⟨pwu, pwg, hu, hg, h3, h4, h5, h6, h7, h8, hr⟩ |
    ⟨pwu, pwg, hu, hg, h3, h4, h5, h6, h7, h8, hr⟩ <;>
  rw [hr] <;>
  refine ⟨fun k hk => ?_, fun path a hrep k hk => ?_⟩ <;>
  first
    | (simp only [syscallKinds, List.mem_cons, List.not_mem_nil,
        or_false] at hk
       rcases hk with rfl | rfl | rfl | rfl | rfl | rfl | rfl | rfl <;>
         first | exact Nat.zero_le _ | exact Nat.le_refl _)
    | (simp only [syscallKinds, List.mem_cons, List.not_mem_nil,
        or_false] at hk
       rcases hk with rfl | rfl | rfl | rfl | rfl | rfl | rfl | rfl <;> rfl)
    | simp at hrep

/-- C7 witness: concrete counts on the all-success oracle. -/
theorem claim_C7_witness :
    (kinds (run osAllOk argvEx rootCreds).trace).count EKind.unshare ≤ 1 ∧
    (kinds (run osAllOk argvEx rootCreds).trace).count EKind.execv = 1 :=
  ⟨(claim_C7 osAllOk argvEx rootCreds).1 EKind.unshare (by decide),
    (claim_C7 osAllOk argvEx rootCreds).2 lynxPath argvEx (by decide)
      EKind.execv (by decide)⟩

/-- C8: the argument vector handed to the replacement executable is exactly
the launcher's own argument vector, element for element, and the executable
path is the fixed lynx path. -/
theorem claim_C8 (os : OS) (argv : List String) (c0 : Creds) :
    (∀ p a, Event.execv p a ∈ (run os argv c0).trace →
      p = lynxPath ∧ a = argv) ∧
    (∀ p a, (run os argv c0).outcome = Outcome.replaced p a →
      p = lynxPath ∧ a = argv) := by
  rcases run_shape os argv c0 with
    ⟨hu, hr⟩ | ⟨pwu, hu, hg, hr⟩ | ⟨pwu, pwg, hu, hg, h3, hr⟩ |
    ⟨pwu, pwg, hu, hg, h3, h4, hr⟩ | ⟨pwu, pwg, hu, hg, h3, h4, h5, hr⟩ |
    ⟨pwu, pwg, hu, hg, h3, h4, h5, h6, hr⟩ |
    ⟨pwu, pwg, hu, hg, h3, h4, h5, h6, h7, hr⟩ |
    ⟨pwu, pwg, hu, hg, h3, h4, h5, h6, h7, h8, hr⟩ |
    ⟨pwu, pwg, hu, hg, h3, h4, h5, h6, h7, h8, hr⟩ <;>
  rw [hr] <;>
  refine ⟨fun p a h => ?_, fun p a h => ?_⟩ <;>
  (simp at h) <;>
  first
    | exact h
    | exact ⟨h.1.symm, h.2.symm⟩

/-- C8 witness: on the all-success oracle the exec call carries the
launcher's own argument vector. -/
theorem claim_C8_witness :
    Event.execv lynxPath argvEx ∈ (run osAllOk argvEx rootCreds).trace ∧
    (lynxPath = lynxPath ∧ argvEx = argvEx) :=
  ⟨by decide, (claim_C8 osAllOk argvEx rootCreds).1 lynxPath argvEx (by decide)⟩

/-- C9: the build-time-fixed configuration is user "nobody", group
"nogroup", working directory "/" and executable "/usr/bin/lynx", and every
call in every trace passes only these fixed values as lookup names, chdir
path and exec path. -/
theorem claim_C9 (os : OS) (argv : List String) (c0 : Creds) :
    targetUser = "nobody" ∧ targetGroup = "nogroup" ∧ rootDir = "/" ∧
    lynxPath = "/usr/bin/lynx" ∧
    (run os argv c0).trace.all fixedArgsB = true := by
  rcases run_shape os argv c0 with
    ⟨hu, hr⟩ | ⟨pwu, hu, hg, hr⟩ | ⟨pwu, pwg, hu, hg, h3, hr⟩ |
    ⟨pwu, pwg, hu, hg, h3, h4, hr⟩ | ⟨pwu, pwg, hu, hg, h3, h4, h5, hr⟩ |
    ⟨pwu, pwg, hu, hg, h3, h4, h5, h6, hr⟩ |
    ⟨pwu, pwg, hu, hg, h3, h4, h5, h6, h7, hr⟩ |
    ⟨pwu, pwg, hu, hg, h3, h4, h5, h6, h7, h8, hr⟩ |
    ⟨pwu, pwg, hu, hg, h3, h4, h5, h6, h7, h8, hr⟩ <;>
  rw [hr] <;>
  exact ⟨rfl, rfl, rfl, rfl, rfl⟩

/-- C10: two runs with argument vectors `a1` and `a2`, on the same oracle
with the same call results, make the identical call sequence and produce
the identical outcome and credentials, up to the argument vector embedded
in the exec call itself; argv influences nothing else. -/
theorem claim_C10 (os : OS) (a1 a2 : List String) (c0 : Creds)
    (h : os.execv lynxPath a1 = os.execv lynxPath a2) :
    (run os a1 c0).trace.map eraseArgv = (run os a2 c0).trace.map eraseArgv ∧
    eraseOutcome (run os a1 c0).outcome =
      eraseOutcome (run os a2 c0).outcome ∧
    (run os a1 c0).creds = (run os a2 c0).creds := by
  rcases run_shape os a1 c0 with
    ⟨hu, hr⟩ | ⟨pwu, hu, hg, hr⟩ | ⟨pwu, pwg, hu, hg, h3, hr⟩ |
    ⟨pwu, pwg, hu, hg, h3, h4, hr⟩ | ⟨pwu, pwg, hu, hg, h3, h4, h5, hr⟩ |
    ⟨pwu, pwg, hu, hg, h3, h4, h5, h6, hr⟩ |
    ⟨pwu, pwg, hu, hg, h3, h4, h5, h6, h7, hr⟩ |
    ⟨pwu, pwg, hu, hg, h3, h4, h5, h6, h7, h8, hr⟩ |
    ⟨pwu, pwg, hu, hg, h3, h4, h5, h6, h7, h8, hr⟩ <;>
  rcases run_shape os a2 c0 with
    ⟨hu2, hr2⟩ | ⟨pwu2, hu2, hg2, hr2⟩ | ⟨pwu2, pwg2, hu2, hg2, g3, hr2⟩ |
    ⟨pwu2, pwg2, hu2, hg2, g3, g4, hr2⟩ |
    ⟨pwu2, pwg2, hu2, hg2, g3, g4, g5, hr2⟩ |
    ⟨pwu2, pwg2, hu2, hg2, g3, g4, g5, g6, hr2⟩ |
    ⟨pwu2, pwg2, hu2, hg2, g3, g4, g5, g6, g7, hr2⟩ |
    ⟨pwu2, pwg2, hu2, hg2, g3, g4, g5, g6, g7, g8, hr2⟩ |
    ⟨pwu2, pwg2, hu2, hg2, g3, g4, g5, g6, g7, g8, hr2⟩ <;>
  simp_all [eraseArgv, eraseOutcome]

/-- C10 witness: two different argument vectors on the all-success oracle
give the same erased trace, outcome and credentials. -/
theorem claim_C10_witness :
    osAllOk.execv lynxPath ["a"] = osAllOk.execv lynxPath ["b"] ∧
    ((run osAllOk ["a"] rootCreds).trace.map eraseArgv =
        (run osAllOk ["b"] rootCreds).trace.map eraseArgv ∧
      eraseOutcome (run osAllOk ["a"] rootCreds).outcome =
        eraseOutcome (run osAllOk ["b"] rootCreds).outcome ∧
      (run osAllOk ["a"] rootCreds).creds =
        (run osAllOk ["b"] rootCreds).creds) :=
  ⟨rfl, claim_C10 osAllOk ["a"] ["b"] rootCreds rfl⟩
